import Mathlib

/-!
Shallow embedding of `src/project_inspector.py`.

The program is a linear pipeline: validate the target directory, run the
external `repomix` tool to flatten the project into a temporary file, pipe
the result into the external `llm` tool, parse its stdout as JSON, format a
plain-text report and emit it to stdout or to `--output`.

Python values flowing out of `json.loads` are modelled by `PyVal`; the
filesystem visible to the run (the temporary files and the optional output
file) by `FS`; the outcomes of the two external tools, the behaviour of the
JSON parser (an external library), the clock and the writability of the
output path by the oracle `Env`.
-/

/-- Python value as produced by `json.loads` (and consumed by
`format_report`): strings, integers, booleans, `None`, lists and
string-keyed dicts. -/
inductive PyVal where
  | vstr (s : String)
  | vnum (n : Int)
  | vbool (b : Bool)
  | vnone
  | vlist (xs : List PyVal)
  | vdict (fields : List (String × PyVal))

/-- First value bound to key `p` in an association list (dict lookup, and
file lookup in the filesystem model). -/
def assocFind {A : Type} (p : String) : List (String × A) → Option A
  | [] => none
  | h :: t => if h.1 == p then some h.2 else assocFind p t

/-- Single-quote character, used when rendering Python `repr` of strings. -/
def squote : String := String.mk [Char.ofNat 39]

mutual

/-- Python structural equality `==` on these values. -/
def pyEq : PyVal → PyVal → Bool
  | .vstr a, .vstr b => a == b
  | .vnum a, .vnum b => a == b
  | .vbool a, .vbool b => a == b
  | .vnone, .vnone => true
  | .vlist a, .vlist b => pyEqList a b
  | .vdict a, .vdict b => pyEqFields a b
  | _, _ => false

/-- Elementwise Python `==` on lists. -/
def pyEqList : List PyVal → List PyVal → Bool
  | [], [] => true
  | a :: as, b :: bs => pyEq a b && pyEqList as bs
  | _, _ => false

/-- Fieldwise Python `==` on dict entry lists. -/
def pyEqFields : List (String × PyVal) → List (String × PyVal) → Bool
  | [], [] => true
  | (k, v) :: as, (l, w) :: bs => k == l && pyEq v w && pyEqFields as bs
  | _, _ => false

end

/-- Python truthiness (`bool(v)`): empty containers, empty strings, `0`,
`False` and `None` are falsy, everything else truthy. -/
def pyTruthy : PyVal → Bool
  | .vstr s => !s.isEmpty
  | .vnum n => n != 0
  | .vbool b => b
  | .vnone => false
  | .vlist xs => !xs.isEmpty
  | .vdict fs => !fs.isEmpty

mutual

/-- Python `str(v)` for `asRepr = false` and `repr(v)` for `asRepr = true`
(string escaping inside `repr` is not reproduced; no claim depends on it). -/
def pyStr (asRepr : Bool) : PyVal → String
  | .vstr s => if asRepr then squote ++ s ++ squote else s
  | .vnum n => toString n
  | .vbool b => cond b "True" "False"
  | .vnone => "None"
  | .vlist xs => "[" ++ String.intercalate ", " (pyStrItems xs) ++ "]"
  | .vdict fs => "\x7b" ++ String.intercalate ", " (pyStrFields fs) ++ "\x7d"

/-- Renders the elements of a Python list, each via `repr`. -/
def pyStrItems : List PyVal → List String
  | [] => []
  | v :: t => pyStr true v :: pyStrItems t

/-- Renders the key/value pairs of a Python dict, values via `repr`. -/
def pyStrFields : List (String × PyVal) → List String
  | [] => []
  | (k, v) :: t => (squote ++ k ++ squote ++ ": " ++ pyStr true v) :: pyStrFields t

end

/-- Boolean test that `nd` occurs at the head of `hay`. -/
def listStartsWith : List Char → List Char → Bool
  | _, [] => true
  | [], _ :: _ => false
  | a :: as, b :: bs => a == b && listStartsWith as bs

/-- Boolean test that `nd` occurs contiguously somewhere in `hay`
(Python substring containment for `str in str`). -/
def listHasSub : List Char → List Char → Bool
  | [], nd => nd.isEmpty
  | a :: as, nd => listStartsWith (a :: as) nd || listHasSub as nd

/-- Python `k in v` for a string key `k`: dict key membership, list element
membership, substring test on strings; `TypeError` (= `none`) on
non-container values. -/
def pyContains (v : PyVal) (k : String) : Option Bool :=
  match v with
  | .vdict fs => some (fs.any (fun p => p.1 == k))
  | .vlist xs => some (xs.any (fun x => pyEq x (.vstr k)))
  | .vstr s => some (listHasSub s.toList k.toList)
  | _ => none

/-- Python `v[k]` for a string key `k`, as used after an `in` guard:
dict lookup; indexing a list or string by a string, or a non-container,
raises `TypeError` (= `none`). A missing dict key would raise `KeyError`,
also `none`. -/
def pyIndex (v : PyVal) (k : String) : Option PyVal :=
  match v with
  | .vdict fs => assocFind k fs
  | _ => none

/-- Python iteration `for x in v`: lists yield elements, strings yield
one-character strings, dicts yield their keys; other values raise
`TypeError` (= `none`). -/
def iterElems : PyVal → Option (List PyVal)
  | .vlist xs => some xs
  | .vstr s => some (s.toList.map fun c => .vstr (String.mk [c]))
  | .vdict fs => some (fs.map fun p => .vstr p.1)
  | _ => none

/-- The loop `for i, rec in enumerate(recs, 1): report.append(f"{i}. {rec}")`
starting at index `i`. -/
def numberFrom (i : Nat) : List PyVal → List PyVal
  | [] => []
  | r :: t => .vstr (toString i ++ ". " ++ pyStr false r) :: numberFrom (i + 1) t

/-- The banner line `"=" * 80`. -/
def bar80 : String := String.mk (List.replicate 80 (Char.ofNat 61))

/-- The separator line `"-" * 80`. -/
def dash80 : String := String.mk (List.replicate 80 (Char.ofNat 45))

/-- Splits a character list on a separator character. -/
def splitOnChar (sep : Char) : List Char → List (List Char)
  | [] => [[]]
  | c :: t =>
    match splitOnChar sep t, c == sep with
    | r, true => [] :: r
    | [], false => [[c]]
    | h :: rt, false => (c :: h) :: rt

/-- Models `os.path.basename(os.path.abspath(d))`: the last nonempty
slash-separated component of the path (exact for absolute normalized paths;
the title line built from it is not load-bearing for any claim). -/
def lastComponent (d : String) : String :=
  match ((splitOnChar (Char.ofNat 47) d.toList).filter
      (fun s => !s.isEmpty)).getLast? with
  | some l => String.mk l
  | none => d

/-- Python `"\n".join(items)`: succeeds only when every item is a `str`,
otherwise raises `TypeError` (= `none`). -/
def pyJoinStrs : List PyVal → Option (List String)
  | [] => some []
  | .vstr s :: t => (pyJoinStrs t).map (fun l => s :: l)
  | _ :: _ => none

/-- The list of report lines built by `format_report` (lines 181-221 of the
source), before the final join. Each `report.append` contributes one entry;
`analysis["project_summary"]` is appended as the Python value it is. The
clock `datetime.now().strftime(...)` is passed in as `now`. `none` models a
`TypeError` raised by `in`, indexing or iteration on an unsuitable
`analysis` value. -/
def format_lines (directory : String) (analysis : PyVal) (now : String) :
    Option (List PyVal) := do
  let overview ←
    match pyContains analysis "project_summary" with
    | none => none
    | some true => pyIndex analysis "project_summary"
    | some false => some (.vstr "No project summary available.")
  let recLines ←
    match pyContains analysis "recommendations" with
    | none => none
    | some true => do
        let v ← pyIndex analysis "recommendations"
        let elems ← iterElems v
        some (numberFrom 1 elems)
    | some false => some [PyVal.vstr "No recommendations available."]
  some ([.vstr bar80,
         .vstr ("PROJECT INSPECTOR REPORT - " ++ lastComponent directory),
         .vstr ("Generated on: " ++ now),
         .vstr bar80,
         .vstr "",
         .vstr "PROJECT OVERVIEW",
         .vstr dash80,
         overview,
         .vstr "",
         .vstr "FILE STATISTICS",
         .vstr dash80,
         .vstr "Context extracted with repomix",
         .vstr "",
         .vstr "RECOMMENDATIONS",
         .vstr dash80] ++ recLines ++
        [.vstr "", .vstr bar80])

/-- The function `format_report(directory, context, analysis)` of the
source: builds the line list and joins it with newlines. The `context`
argument is accepted and ignored, exactly as in the source (it is only
mentioned in a comment there). `none` models an uncaught `TypeError`. -/
def format_report (directory : String) (context : String) (analysis : PyVal)
    (now : String) : Option String :=
  let _ := context
  (format_lines directory analysis now).bind
    (fun items => (pyJoinStrs items).map (fun l => String.intercalate "\n" l))

/-- Filesystem visible to the run: the plain files the program reads,
writes and removes (temporary files and the optional output file), as a
path-to-content association list. -/
structure FS where
  files : List (String × String)

/-- Boolean test that a file exists (`os.path.exists` on a file path). -/
def FS.hasFile (fs : FS) (p : String) : Bool := (assocFind p fs.files).isSome

/-- Content of a file, `none` when absent (opening then raises
`FileNotFoundError`). -/
def FS.readFile (fs : FS) (p : String) : Option String := assocFind p fs.files

/-- Creates or overwrites a file (`open(p, "w")` followed by a write). -/
def FS.writeFile (fs : FS) (p c : String) : FS :=
  ⟨(p, c) :: fs.files.filter (fun q => q.1 != p)⟩

/-- Removes a file (`os.remove`). -/
def FS.removeFile (fs : FS) (p : String) : FS :=
  ⟨fs.files.filter (fun q => q.1 != p)⟩

/-- Outcome of the `repomix -o temp_output.md --style plain <dir>` child
process: the executable may be absent (`FileNotFoundError` from
`subprocess.run`), exit non-zero (`CalledProcessError`, possibly after
writing the output file partially), or exit zero; `wrote` is the content it
left in the output file (`none` models the file being unexpectedly
absent). -/
inductive RepomixRes where
  | notFound
  | fail (wrote : Option String)
  | ok (wrote : Option String)

/-- Outcome of the `llm prompt <prompt>` child process fed the extracted
context on stdin: absent executable, non-zero exit, or success with the
given stdout text. -/
inductive LlmRes where
  | notFound
  | fail
  | ok (stdout : String)

/-- Oracle for everything outside the program: which paths are directories,
the behaviour of the two external tools as functions of their input, the
JSON parser `json.loads` of the standard library (`none` models
`json.JSONDecodeError`), the formatted clock reading, and whether opening
the `--output` path for writing succeeds. -/
structure Env where
  dirAt : String → Bool
  repomix : String → RepomixRes
  llm : String → LlmRes
  loads : String → Option PyVal
  now : String
  writeOk : String → Bool

/-- Diagnostic messages the program prints to stderr, one tag per `print`
site in the source (`tempReadError` and `tempFileError` correspond to the
`except IOError` branches, which the filesystem model never triggers;
`outputWriteError` to the `except IOError` around the output write). -/
inductive ErrMsg where
  | dirNotExist (d : String)
  | notADirectory (d : String)
  | repomixFailed
  | repomixNotFound
  | tempReadError
  | llmFailed
  | llmNotFound
  | jsonParseError
  | tempFileError
  | outputWriteError
  deriving DecidableEq

/-- Name of the temporary file used by `extract_context`. -/
def temp_output_name : String := "temp_output.md"

/-- Name of the temporary file used by `analyze_context`. -/
def temp_input_name : String := "temp_input.md"

/-- Python `os.path.exists`: true for the modelled files and for the paths
the directory oracle knows. -/
def os_path_exists (env : Env) (fs : FS) (p : String) : Bool :=
  fs.hasFile p || env.dirAt p

/-- Python `os.path.isdir`. -/
def os_path_isdir (env : Env) (p : String) : Bool := env.dirAt p

/-- The function `check_directory(directory)` (lines 40-58): reports
whether the path exists and is a directory, returning the stderr messages
it prints. -/
def check_directory (env : Env) (fs : FS) (d : String) : Bool × List ErrMsg :=
  if !(os_path_exists env fs d) then (false, [.dirNotExist d])
  else if !(os_path_isdir env d) then (false, [.notADirectory d])
  else (true, [])

/-- The `finally` block shared by both stages (lines 104-110 and 161-167):
if the temporary file exists it is removed (the inner `except: pass` around
`os.remove` is for exotic OS failures; in this filesystem model removal of
an existing file succeeds). -/
def finallyCleanup (p : String) (fs : FS) : FS :=
  if fs.hasFile p then fs.removeFile p else fs

/-- The function `extract_context(directory, verbose)` (lines 60-110).
Returns the extracted text (or `none` on failure), the filesystem after the
`try/finally`, and the stderr messages. When `repomix` exits zero but the
output file is absent, `open` raises `FileNotFoundError`, which the
`except FileNotFoundError` clause (line 98) catches before `except
IOError` ever could, so the message printed is `repomixNotFound` — exactly
as in the source. -/
def extract_context (env : Env) (fs : FS) (directory : String) :
    Option String × FS × List ErrMsg :=
  match env.repomix directory with
  | .notFound => (none, finallyCleanup temp_output_name fs, [.repomixNotFound])
  | .fail w =>
      let fs1 := match w with
        | some c => fs.writeFile temp_output_name c
        | none => fs
      (none, finallyCleanup temp_output_name fs1, [.repomixFailed])
  | .ok w =>
      let fs1 := match w with
        | some c => fs.writeFile temp_output_name c
        | none => fs
      match fs1.readFile temp_output_name with
      | some content =>
          (some content,
           finallyCleanup temp_output_name (fs1.removeFile temp_output_name),
           [])
      | none => (none, finallyCleanup temp_output_name fs1, [.repomixNotFound])

/-- The function `analyze_context(context, verbose)` (lines 112-167): writes
the context to `temp_input.md`, feeds it to `llm`, parses the stdout with
`json.loads`, and cleans the temporary file up in the `finally` block.
Returns the parsed value (or `none` on failure), the filesystem after the
`try/finally`, and the stderr messages. -/
def analyze_context (env : Env) (fs : FS) (context : String) :
    Option PyVal × FS × List ErrMsg :=
  let fs1 := fs.writeFile temp_input_name context
  match env.llm context with
  | .notFound => (none, finallyCleanup temp_input_name fs1, [.llmNotFound])
  | .fail => (none, finallyCleanup temp_input_name fs1, [.llmFailed])
  | .ok out =>
      match env.loads out with
      | some v => (some v, finallyCleanup temp_input_name fs1, [])
      | none => (none, finallyCleanup temp_input_name fs1, [.jsonParseError])

/-- Parsed command line: the positional directory, `--output` and
`--verbose` (the verbose flag only adds stdout echo lines and changes no
behaviour modelled here). -/
structure Args where
  directory : String
  output : Option String
  verbose : Bool

/-- Observable outcome of one run of `main()` : process exit status, final
filesystem, the report printed to stdout (if any), the report written to
the `--output` file (if any), whether each external tool was launched, and
the stderr diagnostics in order. -/
structure RunResult where
  exitCode : Nat
  fs : FS
  stdoutReport : Option String
  fileReport : Option String
  ranRepomix : Bool
  ranLlm : Bool
  errs : List ErrMsg

/-- The function `main()` (lines 225-262). `if not context` is Python
truthiness on `Optional[str]`: both `None` and the empty string abort; `if
not analysis` likewise aborts on `None` and on any falsy parsed value. A
`format_report` result of `none` models the uncaught `TypeError` from
`"\n".join`, which terminates the interpreter with exit status 1 (a
traceback, not one of the program messages). `sys.exit(1)` gives status 1;
falling off the end of `main` gives status 0. -/
def main_run (env : Env) (fs : FS) (args : Args) : RunResult :=
  let chk := check_directory env fs args.directory
  if !chk.1 then
    { exitCode := 1, fs := fs, stdoutReport := none, fileReport := none,
      ranRepomix := false, ranLlm := false, errs := chk.2 }
  else
    let ext := extract_context env fs args.directory
    match ext.1 with
    | none =>
        { exitCode := 1, fs := ext.2.1, stdoutReport := none,
          fileReport := none, ranRepomix := true, ranLlm := false,
          errs := ext.2.2 }
    | some c =>
        if c.isEmpty then
          { exitCode := 1, fs := ext.2.1, stdoutReport := none,
            fileReport := none, ranRepomix := true, ranLlm := false,
            errs := ext.2.2 }
        else
          let ana := analyze_context env ext.2.1 c
          match ana.1 with
          | none =>
              { exitCode := 1, fs := ana.2.1, stdoutReport := none,
                fileReport := none, ranRepomix := true, ranLlm := true,
                errs := ext.2.2 ++ ana.2.2 }
          | some a =>
              if !pyTruthy a then
                { exitCode := 1, fs := ana.2.1, stdoutReport := none,
                  fileReport := none, ranRepomix := true, ranLlm := true,
                  errs := ext.2.2 ++ ana.2.2 }
              else
                match format_report args.directory c a env.now with
                | none =>
                    { exitCode := 1, fs := ana.2.1, stdoutReport := none,
                      fileReport := none, ranRepomix := true, ranLlm := true,
                      errs := ext.2.2 ++ ana.2.2 }
                | some rep =>
                    match args.output with
                    | some p =>
                        if env.writeOk p then
                          { exitCode := 0, fs := (ana.2.1).writeFile p rep,
                            stdoutReport := none, fileReport := some rep,
                            ranRepomix := true, ranLlm := true,
                            errs := ext.2.2 ++ ana.2.2 }
                        else
                          { exitCode := 1, fs := ana.2.1,
                            stdoutReport := none, fileReport := none,
                            ranRepomix := true, ranLlm := true,
                            errs := ext.2.2 ++ ana.2.2 ++ [.outputWriteError] }
                    | none =>
                        { exitCode := 0, fs := ana.2.1,
                          stdoutReport := some rep, fileReport := none,
                          ranRepomix := true, ranLlm := true,
                          errs := ext.2.2 ++ ana.2.2 }

/-- Analysis value with a summary but no `recommendations` key. -/
def c2EmptyAnalysis : PyVal :=
  .vdict [("project_summary", .vstr "S"), ("recommendations", .vlist [])]

/-- Report line list produced for `c2EmptyAnalysis`. -/
def c2EmptyLines : List String :=
  [bar80, "PROJECT INSPECTOR REPORT - d", "Generated on: T", bar80, "",
   "PROJECT OVERVIEW", dash80, "S", "", "FILE STATISTICS", dash80,
   "Context extracted with repomix", "", "RECOMMENDATIONS", dash80,
   "", bar80]

/-- Analysis value whose `recommendations` key is absent. -/
def c2AbsentAnalysis : PyVal := .vdict [("project_summary", .vstr "S")]

/-- Report line list produced for `c2AbsentAnalysis`. -/
def c2AbsentLines : List PyVal :=
  [.vstr bar80, .vstr "PROJECT INSPECTOR REPORT - d",
   .vstr "Generated on: T", .vstr bar80, .vstr "",
   .vstr "PROJECT OVERVIEW", .vstr dash80, .vstr "S", .vstr "",
   .vstr "FILE STATISTICS", .vstr dash80,
   .vstr "Context extracted with repomix", .vstr "",
   .vstr "RECOMMENDATIONS", .vstr dash80,
   .vstr "No recommendations available.", .vstr "", .vstr bar80]

/-- Empty filesystem used by the concrete witnesses. -/
def fsEmpty : FS := ⟨[]⟩

/-- Environment in which no path is a directory. -/
def envNoDir : Env :=
  ⟨fun _ => false, fun _ => .notFound, fun _ => .fail, fun _ => none,
   "T", fun _ => true⟩

/-- Environment with a valid directory but no `repomix` executable. -/
def envNoRepomix : Env :=
  ⟨fun _ => true, fun _ => .notFound, fun _ => .fail, fun _ => none,
   "T", fun _ => true⟩

/-- Environment in which both tools run but `llm` prints non-JSON. -/
def envBadJson : Env :=
  ⟨fun _ => true, fun _ => .ok (some "CTX"), fun _ => .ok "BAD",
   fun _ => none, "T", fun _ => true⟩

/-- Environment in which `llm` prints valid JSON parsing to the falsy
empty object. -/
def envFalsyJson : Env :=
  ⟨fun _ => true, fun _ => .ok (some "CTX"), fun _ => .ok "\x7b\x7d",
   fun _ => some (.vdict []), "T", fun _ => true⟩

/-- Environment in which the whole pipeline succeeds. -/
def envHappy : Env :=
  ⟨fun _ => true, fun _ => .ok (some "CTX"), fun _ => .ok "J",
   fun _ => some (.vdict [("project_summary", .vstr "S"),
     ("recommendations", .vlist [.vstr "A"])]),
   "T", fun _ => true⟩

theorem assocFind_filter_ne {A : Type} (p : String) (l : List (String × A)) :
    assocFind p (l.filter (fun q => q.1 != p)) = none := by
  induction l with
  | nil => rfl
  | cons hd tl ih =>
    cases hb : hd.1 == p with
    | true =>
      have hc : (hd.1 != p) = false := by simp [bne, hb]
      simp [List.filter_cons, hc, ih]
    | false =>
      have hc : (hd.1 != p) = true := by simp [bne, hb]
      simp [List.filter_cons, hc, assocFind, hb, ih]

theorem FS.hasFile_removeFile (fs : FS) (p : String) :
    (fs.removeFile p).hasFile p = false := by
  unfold FS.removeFile FS.hasFile
  simp [assocFind_filter_ne]

theorem finallyCleanup_clears (p : String) (fs : FS) :
    (finallyCleanup p fs).hasFile p = false := by
  unfold finallyCleanup
  cases h : fs.hasFile p with
  | true => simp [h, FS.hasFile_removeFile]
  | false => simp [h]

/-- C4: on every exit path of `extract_context` (tool missing, tool failed,
output file present, output file unexpectedly absent) and of
`analyze_context` (tool missing, tool failed, JSON parse failure, success),
the temporary file of that stage does not exist in the returned filesystem:
the `finally` block removes it. -/
theorem claim_C4 (env : Env) (fs : FS) (d c : String) :
    ((extract_context env fs d).2.1).hasFile temp_output_name = false ∧
    ((analyze_context env fs c).2.1).hasFile temp_input_name = false := by
  constructor
  · unfold extract_context
    cases env.repomix d with
    | notFound => exact finallyCleanup_clears _ _
    | fail w => cases w <;> simp [finallyCleanup_clears]
    | ok w =>
      cases w with
      | none =>
        cases hr : FS.readFile fs temp_output_name <;>
          simp [hr, finallyCleanup_clears]
      | some cnt =>
        cases hr : FS.readFile (fs.writeFile temp_output_name cnt)
            temp_output_name <;>
          simp [hr, finallyCleanup_clears]
  · unfold analyze_context
    cases env.llm c with
    | notFound => simp [finallyCleanup_clears]
    | fail => simp [finallyCleanup_clears]
    | ok out => cases hl : env.loads out <;> simp [hl, finallyCleanup_clears]

/-- C9: `format_report` is a pure function of the directory, the analysis
value and the clock reading: the extracted-context argument does not
influence the result at all (in the source it is only mentioned in a
comment), and equal inputs give equal reports. Side-effect freedom is
expressed by the embedding itself: the function is a plain function of its
arguments into a string. -/
theorem claim_C9 (d c1 c2 : String) (analysis : PyVal) (t : String) :
    format_report d c1 analysis t = format_report d c2 analysis t := rfl

/-- C1: for every directory path (and any extracted context and clock
reading) and the analysis mapping `\x7b"project_summary": s,
"recommendations": [a, b]\x7d`, `format_report` succeeds and its report is
the newline join of a line list that contains the summary line `s`
immediately under the PROJECT OVERVIEW header and the numbered lines
`1. a` and `2. b` immediately under the RECOMMENDATIONS header. -/
theorem claim_C1 (d c t s a b : String) :
    ∃ L : List String,
      format_report d c
        (.vdict [("project_summary", .vstr s),
                 ("recommendations", .vlist [.vstr a, .vstr b])]) t =
        some (String.intercalate "\n" L) ∧
      ["PROJECT OVERVIEW", dash80, s] <:+: L ∧
      ["RECOMMENDATIONS", dash80, "1. " ++ a, "2. " ++ b] <:+: L := by
  refine ⟨[bar80, "PROJECT INSPECTOR REPORT - " ++ lastComponent d,
    "Generated on: " ++ t, bar80, "", "PROJECT OVERVIEW", dash80, s, "",
    "FILE STATISTICS", dash80, "Context extracted with repomix", "",
    "RECOMMENDATIONS", dash80, "1. " ++ a, "2. " ++ b, "", bar80],
    ?_, ?_, ?_⟩
  · have h1 : toString (1 : Nat) = "1" := rfl
    have h2 : toString (2 : Nat) = "2" := rfl
    have h3 : ("1" : String) ++ ". " = "1. " := rfl
    have h4 : ("2" : String) ++ ". " = "2. " := rfl
    simp [format_report, format_lines, pyContains, pyIndex, iterElems,
      numberFrom, pyStr, pyJoinStrs, assocFind, h1, h2, h3, h4]
  · exact ⟨[bar80, "PROJECT INSPECTOR REPORT - " ++ lastComponent d,
      "Generated on: " ++ t, bar80, ""],
      ["", "FILE STATISTICS", dash80, "Context extracted with repomix", "",
       "RECOMMENDATIONS", dash80, "1. " ++ a, "2. " ++ b, "", bar80], rfl⟩
  · exact ⟨[bar80, "PROJECT INSPECTOR REPORT - " ++ lastComponent d,
      "Generated on: " ++ t, bar80, "", "PROJECT OVERVIEW", dash80, s, "",
      "FILE STATISTICS", dash80, "Context extracted with repomix", ""],
      ["", bar80], rfl⟩

theorem assocFind_any {A : Type} (p : String) (l : List (String × A)) (v : A)
    (h : assocFind p l = some v) : l.any (fun q => q.1 == p) = true := by
  induction l with
  | nil => simp [assocFind] at h
  | cons hd tl ih =>
    cases hb : hd.1 == p with
    | true => simp [List.any_cons, hb]
    | false =>
      have h2 := h
      simp only [assocFind, hb, if_neg, Bool.false_eq_true,
        not_false_iff, if_false] at h2
      simp [List.any_cons, hb, ih h2]

set_option maxRecDepth 40000 in
/-- C2 counterexample: for the analysis mapping
`\x7b"project_summary": "S", "recommendations": []\x7d` — whose
recommendations list is present but empty — `format_report` succeeds, yet
the placeholder text "No recommendations available." does not occur
anywhere in the report (not even as a substring), contradicting the claim
that an empty list yields the placeholder line. -/
theorem claim_C2_counterexample :
    format_report "d" "ctx" c2EmptyAnalysis "T" =
      some (String.intercalate "\n" c2EmptyLines) ∧
    listHasSub (String.intercalate "\n" c2EmptyLines).toList
      "No recommendations available.".toList = false := by
  constructor
  · decide
  · decide

/-- C2 as amended: if the `recommendations` key is absent from the analysis
(the `in` test of line 214 is false), the RECOMMENDATIONS section of the
report consists of exactly the placeholder line "No recommendations
available." and no numbered items; if the key is present but maps to the
empty list, the section is empty: no numbered items, but no placeholder
either. -/
theorem claim_C2_amended (d t : String) (analysis : PyVal) :
    (pyContains analysis "recommendations" = some false →
      ∀ L, format_lines d analysis t = some L →
        ∃ pre, L = pre ++ [.vstr "RECOMMENDATIONS", .vstr dash80,
          .vstr "No recommendations available.", .vstr "", .vstr bar80]) ∧
    (∀ fields, analysis = .vdict fields →
      assocFind "recommendations" fields = some (.vlist []) →
      ∀ L, format_lines d analysis t = some L →
        ∃ pre, L = pre ++ [.vstr "RECOMMENDATIONS", .vstr dash80,
          .vstr "", .vstr bar80]) := by
  constructor
  · intro hrec L hL
    unfold format_lines at hL
    rw [hrec] at hL
    cases hps : pyContains analysis "project_summary" with
    | none => rw [hps] at hL; simp at hL
    | some bv =>
      rw [hps] at hL
      cases bv with
      | false =>
        simp at hL
        refine ⟨[.vstr bar80,
          .vstr ("PROJECT INSPECTOR REPORT - " ++ lastComponent d),
          .vstr ("Generated on: " ++ t), .vstr bar80, .vstr "",
          .vstr "PROJECT OVERVIEW", .vstr dash80,
          .vstr "No project summary available.", .vstr "",
          .vstr "FILE STATISTICS", .vstr dash80,
          .vstr "Context extracted with repomix", .vstr ""], ?_⟩
        rw [← hL]
        rfl
      | true =>
        cases hpi : pyIndex analysis "project_summary" with
        | none => rw [hpi] at hL; simp at hL
        | some ov =>
          rw [hpi] at hL
          simp at hL
          refine ⟨[.vstr bar80,
            .vstr ("PROJECT INSPECTOR REPORT - " ++ lastComponent d),
            .vstr ("Generated on: " ++ t), .vstr bar80, .vstr "",
            .vstr "PROJECT OVERVIEW", .vstr dash80, ov, .vstr "",
            .vstr "FILE STATISTICS", .vstr dash80,
            .vstr "Context extracted with repomix", .vstr ""], ?_⟩
          rw [← hL]
          rfl
  · intro fields hA hlook L hL
    subst hA
    have hcon : pyContains (.vdict fields) "recommendations" = some true := by
      simp [pyContains, assocFind_any "recommendations" fields _ hlook]
    unfold format_lines at hL
    rw [hcon] at hL
    have hidx : pyIndex (PyVal.vdict fields) "recommendations" =
        some (.vlist []) := hlook
    rw [hidx] at hL
    cases hps : pyContains (PyVal.vdict fields) "project_summary" with
    | none => rw [hps] at hL; simp at hL
    | some bv =>
      rw [hps] at hL
      cases bv with
      | false =>
        simp [iterElems, numberFrom] at hL
        refine ⟨[.vstr bar80,
          .vstr ("PROJECT INSPECTOR REPORT - " ++ lastComponent d),
          .vstr ("Generated on: " ++ t), .vstr bar80, .vstr "",
          .vstr "PROJECT OVERVIEW", .vstr dash80,
          .vstr "No project summary available.", .vstr "",
          .vstr "FILE STATISTICS", .vstr dash80,
          .vstr "Context extracted with repomix", .vstr ""], ?_⟩
        rw [← hL]
        rfl
      | true =>
        cases hpi : pyIndex (PyVal.vdict fields) "project_summary" with
        | none => rw [hpi] at hL; simp at hL
        | some ov =>
          rw [hpi] at hL
          simp [iterElems, numberFrom] at hL
          refine ⟨[.vstr bar80,
            .vstr ("PROJECT INSPECTOR REPORT - " ++ lastComponent d),
            .vstr ("Generated on: " ++ t), .vstr bar80, .vstr "",
            .vstr "PROJECT OVERVIEW", .vstr dash80, ov, .vstr "",
            .vstr "FILE STATISTICS", .vstr dash80,
            .vstr "Context extracted with repomix", .vstr ""], ?_⟩
          rw [← hL]
          rfl

theorem claim_C2_witness :
    ∃ pre, c2AbsentLines = pre ++ [.vstr "RECOMMENDATIONS", .vstr dash80,
      .vstr "No recommendations available.", .vstr "", .vstr bar80] :=
  (claim_C2_amended "d" "T" c2AbsentAnalysis).1 rfl c2AbsentLines rfl

/-- C3: when the target path does not exist or is not a directory,
`check_directory` fails; `main` then exits with status 1 having printed a
descriptive error to stderr, and neither `repomix` nor `llm` is ever
launched; no report is emitted anywhere. -/
theorem claim_C3 (env : Env) (fs : FS) (args : Args)
    (h : (check_directory env fs args.directory).1 = false) :
    (main_run env fs args).exitCode = 1 ∧
    (main_run env fs args).ranRepomix = false ∧
    (main_run env fs args).ranLlm = false ∧
    (main_run env fs args).stdoutReport = none ∧
    (main_run env fs args).fileReport = none ∧
    (main_run env fs args).errs = (check_directory env fs args.directory).2 ∧
    (check_directory env fs args.directory).2 ≠ [] := by
  have hne : (check_directory env fs args.directory).2 ≠ [] := by
    unfold check_directory at h ⊢
    by_cases h1 : os_path_exists env fs args.directory = true
    · by_cases h2 : os_path_isdir env args.directory = true
      · simp [h1, h2] at h
      · simp [h1, h2]
    · simp [h1]
  simp [main_run, h, hne]

/-- C5: when validation passes but the `repomix` executable is absent
(`subprocess.run` raises `FileNotFoundError`), the run prints the
missing-dependency message, never launches `llm`, emits no report, and
exits with status 1. -/
theorem claim_C5 (env : Env) (fs : FS) (args : Args)
    (hchk : (check_directory env fs args.directory).1 = true)
    (hrx : env.repomix args.directory = .notFound) :
    (main_run env fs args).exitCode = 1 ∧
    (main_run env fs args).ranLlm = false ∧
    (main_run env fs args).errs = [.repomixNotFound] ∧
    (main_run env fs args).stdoutReport = none ∧
    (main_run env fs args).fileReport = none := by
  simp [main_run, hchk, extract_context, hrx]

/-- C6: when the `llm` tool exits successfully but its stdout is not
parseable as JSON (`json.loads` fails), the run prints the parse-failure
message and exits with status 1, emitting no report to stdout or to the
output file. -/
theorem claim_C6 (env : Env) (fs : FS) (args : Args) (c out : String)
    (hchk : (check_directory env fs args.directory).1 = true)
    (hext : (extract_context env fs args.directory).1 = some c)
    (hc : c.isEmpty = false)
    (hllm : env.llm c = .ok out)
    (hparse : env.loads out = none) :
    (main_run env fs args).exitCode = 1 ∧
    (main_run env fs args).stdoutReport = none ∧
    (main_run env fs args).fileReport = none ∧
    ErrMsg.jsonParseError ∈ (main_run env fs args).errs := by
  simp [main_run, hchk, hext, hc, analyze_context, hllm, hparse]

/-- C10: when the analyzer output parses successfully but to a falsy value
(`None`, `\x7b\x7d`, `[]`, `0`, `False` or the empty string), `if not
analysis` aborts the run with exit status 1 before `format_report` is ever
reached: no report is emitted, and no further diagnostic is printed (the
stderr messages are exactly those of the extraction stage). -/
theorem claim_C10 (env : Env) (fs : FS) (args : Args) (c out : String)
    (v : PyVal)
    (hchk : (check_directory env fs args.directory).1 = true)
    (hext : (extract_context env fs args.directory).1 = some c)
    (hc : c.isEmpty = false)
    (hllm : env.llm c = .ok out)
    (hparse : env.loads out = some v)
    (hfalsy : pyTruthy v = false) :
    (main_run env fs args).exitCode = 1 ∧
    (main_run env fs args).stdoutReport = none ∧
    (main_run env fs args).fileReport = none ∧
    (main_run env fs args).errs =
      (extract_context env fs args.directory).2.2 := by
  simp [main_run, hchk, hext, hc, analyze_context, hllm, hparse, hfalsy]

/-- C7: every run exits with status 0 or 1; status 0 holds exactly when a
report was emitted (to stdout or to the output file); the analyzer only
runs if the extractor ran; a failed validation prevents the extractor, and
a failed extraction prevents the analyzer. -/
theorem claim_C7 (env : Env) (fs : FS) (args : Args) :
    ((main_run env fs args).exitCode = 0 ∨
      (main_run env fs args).exitCode = 1) ∧
    ((main_run env fs args).exitCode = 0 ↔
      ((main_run env fs args).stdoutReport ≠ none ∨
       (main_run env fs args).fileReport ≠ none)) ∧
    ((main_run env fs args).ranLlm = true →
      (main_run env fs args).ranRepomix = true) ∧
    ((check_directory env fs args.directory).1 = false →
      (main_run env fs args).ranRepomix = false) ∧
    ((extract_context env fs args.directory).1 = none →
      (main_run env fs args).ranLlm = false) := by
  cases hchk : (check_directory env fs args.directory).1 with
  | false => simp [main_run, hchk]
  | true =>
    cases hext : (extract_context env fs args.directory).1 with
    | none => simp [main_run, hchk, hext]
    | some c =>
      cases hc : c.isEmpty with
      | true => simp [main_run, hchk, hext, hc]
      | false =>
        cases hana : (analyze_context env
            (extract_context env fs args.directory).2.1 c).1 with
        | none => simp [main_run, hchk, hext, hc, hana]
        | some a =>
          cases hta : pyTruthy a with
          | false => simp [main_run, hchk, hext, hc, hana, hta]
          | true =>
            cases hfr : format_report args.directory c a env.now with
            | none => simp [main_run, hchk, hext, hc, hana, hta, hfr]
            | some rep =>
              cases hout : args.output with
              | none => simp [main_run, hchk, hext, hc, hana, hta, hfr, hout]
              | some p =>
                cases hwk : env.writeOk p with
                | false =>
                  simp [main_run, hchk, hext, hc, hana, hta, hfr, hout, hwk]
                | true =>
                  simp [main_run, hchk, hext, hc, hana, hta, hfr, hout, hwk]

/-- C8: for the same environment, filesystem, directory and verbosity (and
hence the same clock reading), the report written to a writable `--output`
file is exactly the report that would have been printed to stdout without
`--output`: both runs either emit the same string or both fail to emit;
moreover the written file really carries that string in the final
filesystem. -/
theorem claim_C8 (env : Env) (fs : FS) (d : String) (vb : Bool) (p : String)
    (hw : env.writeOk p = true) :
    (main_run env fs ⟨d, some p, vb⟩).fileReport =
      (main_run env fs ⟨d, none, vb⟩).stdoutReport ∧
    (∀ rep,
      (main_run env fs ⟨d, some p, vb⟩).fileReport = some rep →
      ((main_run env fs ⟨d, some p, vb⟩).fs).readFile p = some rep) := by
  cases hchk : (check_directory env fs d).1 with
  | false => simp [main_run, hchk]
  | true =>
    cases hext : (extract_context env fs d).1 with
    | none => simp [main_run, hchk, hext]
    | some c =>
      cases hc : c.isEmpty with
      | true => simp [main_run, hchk, hext, hc]
      | false =>
        cases hana : (analyze_context env
            (extract_context env fs d).2.1 c).1 with
        | none => simp [main_run, hchk, hext, hc, hana]
        | some a =>
          cases hta : pyTruthy a with
          | false => simp [main_run, hchk, hext, hc, hana, hta]
          | true =>
            cases hfr : format_report d c a env.now with
            | none => simp [main_run, hchk, hext, hc, hana, hta, hfr]
            | some rep =>
              simp [main_run, hchk, hext, hc, hana, hta, hfr, hw,
                FS.readFile, FS.writeFile, assocFind]

theorem claim_C3_witness :
    (main_run envNoDir fsEmpty ⟨"missing", none, false⟩).exitCode = 1 :=
  (claim_C3 envNoDir fsEmpty ⟨"missing", none, false⟩ rfl).1

theorem claim_C5_witness :
    (main_run envNoRepomix fsEmpty ⟨"proj", none, false⟩).ranLlm = false :=
  (claim_C5 envNoRepomix fsEmpty ⟨"proj", none, false⟩ rfl rfl).2.1

theorem claim_C6_witness :
    (main_run envBadJson fsEmpty ⟨"proj", none, false⟩).exitCode = 1 :=
  (claim_C6 envBadJson fsEmpty ⟨"proj", none, false⟩ "CTX" "BAD"
    rfl rfl rfl rfl rfl).1

theorem claim_C10_witness :
    (main_run envFalsyJson fsEmpty ⟨"proj", none, false⟩).exitCode = 1 :=
  (claim_C10 envFalsyJson fsEmpty ⟨"proj", none, false⟩ "CTX" "\x7b\x7d"
    (.vdict []) rfl rfl rfl rfl rfl rfl).1

theorem claim_C8_witness :
    (main_run envHappy fsEmpty ⟨"proj", some "out.txt", false⟩).fileReport =
      (main_run envHappy fsEmpty ⟨"proj", none, false⟩).stdoutReport :=
  (claim_C8 envHappy fsEmpty "proj" false "out.txt" rfl).1

theorem claim_C7_witness :
    (main_run envHappy fsEmpty ⟨"proj", none, false⟩).exitCode = 0 ∨
    (main_run envHappy fsEmpty ⟨"proj", none, false⟩).exitCode = 1 :=
  (claim_C7 envHappy fsEmpty ⟨"proj", none, false⟩).1
